import Mathlib

/-!
Verification development for the SRP-6a client core (`bsrp/client.py`).

The embedding models byte strings as lists of byte values (`List Nat`),
big integers as `Nat` (with `Int` where Python subtraction may go
negative), and the external contracts of the specification (Hash, key
derivation `_calculate_x`, message derivation `_calculate_M`, the random
source) as explicit function parameters, since they are outside the core.
The helpers `_pad` and `_to_int` from the absent `utils` module are
modelled from the specification of the Padding and ToInt contracts.
-/

namespace BSRP

/-- Byte strings: lists of byte values, big-endian order throughout. -/
abbrev Bytes := List Nat

/-- Modelled from the spec: the natural big-endian byte encoding of a
non-negative integer (canonical, minimal, no forced padding); auxiliary
fuel-structured recursion so that it reduces in the kernel. -/
def toBytesBEAux : Nat → Nat → Bytes
  | 0, _ => []
  | _ + 1, 0 => []
  | fuel + 1, m + 1 => toBytesBEAux fuel ((m + 1) / 256) ++ [(m + 1) % 256]

/-- Modelled from the spec: natural big-endian encoding of an integer. -/
def toBytesBE (n : Nat) : Bytes := toBytesBEAux n n

/-- Modelled from the spec: `ToInt(bytes) -> integer`, big-endian unsigned
decoding of a byte string. This embeds `_to_int` of the absent utils
module. -/
def _to_int (bs : Bytes) : Nat := bs.foldl (fun acc b => acc * 256 + b) 0

/-- Modelled from the spec: `Pad(integer, width_bytes) -> byte sequence`,
big-endian, zero-left-padded to `width` bytes. This embeds `_pad` of the
absent utils module; the width parameter of the Pad contract is measured
in bytes. -/
def _pad (n : Nat) (width : Nat) : Bytes :=
  List.replicate (width - (toBytesBE n).length) 0 ++ toBytesBE n

/-- Embedding of Python `int.bit_length()` (fuel-structured so that it
reduces in the kernel): the number of bits of the binary representation. -/
def bitLengthAux : Nat → Nat → Nat
  | 0, _ => 0
  | _ + 1, 0 => 0
  | fuel + 1, m + 1 => bitLengthAux fuel ((m + 1) / 2) + 1

/-- Embedding of Python `int.bit_length()`. -/
def bit_length (n : Nat) : Nat := bitLengthAux n n

/-- Arguments of the external Hash contract: each argument is either an
integer (serialized by the Hash contract via its canonical encoding) or a
byte sequence. -/
inductive HashArg
  | int (n : Nat)
  | bytes (b : Bytes)
deriving DecidableEq

/-- The external Hash contract `_Hash`: a deterministic function from an
argument list to a byte string. -/
abbrev HashFun := List HashArg → Bytes

/-- The two exception types raised by the client core: `SafetyException`
(from the utils module) and `EvidenceException` (defined in client.py),
each carrying its message. -/
inductive SrpError
  | safetyException (msg : String)
  | evidenceException (msg : String)
deriving DecidableEq

/-- Embedding of Python three-argument `pow` on a possibly negative base:
the result of `pow(base, e, m)` for positive `m`, always in `[0, m)`. -/
def powmod (base : Int) (e : Nat) (m : Nat) : Nat :=
  (base ^ e % (m : Int)).toNat

/-- Embedding of `generate_a_pair`: draws 32 random bytes from the random
source, decodes them big-endian to the private ephemeral `a`, and returns
`(a, A)` with `A = pow(generator, a, prime)`. The random source is a
parameter returning either the requested bytes or a failure, which is
propagated unchanged. -/
def generate_a_pair (N g : Nat)
    (generate_random_bytes : Nat → Except String Bytes) :
    Except String (Nat × Nat) :=
  match generate_random_bytes 32 with
  | Except.error e => Except.error e
  | Except.ok bs =>
    let a := _to_int bs
    let A := g ^ a % N
    Except.ok (a, A)

/-- Embedding of `process_challenge`, instrumented: the second component
counts how many times the final modular exponentiation `pow(t1, t2, prime)`
computing the premaster secret runs (0 on the safety-exception paths, 1 on
the success path). The external contracts `_Hash`, `_calculate_x` and
`_calculate_M` are parameters; `N` and `g` stand for `_get_srp_prime()`
and `_get_srp_generator()`. The step order, the pad width
`prime.bit_length()`, the hash argument lists, the `B == 0` and `u == 0`
checks and the exception messages mirror the source line by line. -/
def process_challenge_instr (H : HashFun)
    (calculate_x : Bytes → String → String → Nat)
    (calculate_M : Nat → Nat → String → Bytes → Nat → Nat → Bytes → Bytes)
    (N g : Nat) (identity password : String) (salt : Bytes)
    (a A B : Nat) : Except SrpError (Bytes × Bytes) × Nat :=
  let width := bit_length N
  let padded_generator := _pad g width
  let padded_A := _pad A width
  let padded_B := _pad B width
  let u := _to_int (H [HashArg.bytes padded_A, HashArg.bytes padded_B])
  let x := calculate_x salt identity password
  let k := _to_int (H [HashArg.int N, HashArg.bytes padded_generator])
  if B = 0 then
    (Except.error (SrpError.safetyException "Public value B is 0. Auth Failed."), 0)
  else if u = 0 then
    (Except.error (SrpError.safetyException "Scrambler u is 0. Auth Failed."), 0)
  else
    let t1 : Int := (B : Int) - (k : Int) * ((g ^ x % N : Nat) : Int)
    let t2 := a + u * x
    let S := powmod t1 t2 N
    let session_key := H [HashArg.int S]
    let M := calculate_M g N identity salt A B session_key
    (Except.ok (M, session_key), 1)

/-- Embedding of `process_challenge`: the returned value (message `M` and
`session_key`) or the raised exception, dropping the instrumentation. -/
def process_challenge (H : HashFun)
    (calculate_x : Bytes → String → String → Nat)
    (calculate_M : Nat → Nat → String → Bytes → Nat → Nat → Bytes → Bytes)
    (N g : Nat) (identity password : String) (salt : Bytes)
    (a A B : Nat) : Except SrpError (Bytes × Bytes) :=
  (process_challenge_instr H calculate_x calculate_M N g identity password
    salt a A B).1

/-- Embedding of `verify_session`: recomputes the server evidence
`H(A, M, session_key)` and compares it against `server_H_AMK`, raising
`EvidenceException` on mismatch and returning the recomputed value on
match. -/
def verify_session (H : HashFun) (A : Nat)
    (M session_key server_H_AMK : Bytes) : Except SrpError Bytes :=
  let client_H_AMK := H [HashArg.int A, HashArg.bytes M,
    HashArg.bytes session_key]
  if client_H_AMK ≠ server_H_AMK then
    Except.error (SrpError.evidenceException "Evidence keys do not match. Auth Failed.")
  else
    Except.ok client_H_AMK

/-!
Helper lemmas shared by the claim theorems.
-/

/-- Modular exponentiation over the integers may reduce the base first. -/
lemma int_pow_emod (a : Int) (b : Nat) (n : Int) : a ^ b % n = (a % n) ^ b % n := by
  induction b with
  | zero => simp
  | succ b ih =>
    rw [pow_succ, pow_succ, Int.mul_emod, ih, Int.mul_emod ((a % n) ^ b) (a % n),
      Int.emod_emod_of_dvd a dvd_rfl]

/-- The embedded Python `pow(t1, t2, N)` on a possibly negative base equals
first normalizing the base into `[0, N)` and then exponentiating over the
naturals. -/
lemma powmod_eq_norm (t1 : Int) (t2 N : Nat) (hN : 0 < N) :
    powmod t1 t2 N = (t1 % (N : Int)).toNat ^ t2 % N := by
  have hNz : (N : Int) ≠ 0 := Int.natCast_ne_zero.mpr hN.ne'
  have h1 : (0 : Int) ≤ t1 % (N : Int) := Int.emod_nonneg t1 hNz
  have h2 : (((t1 % (N : Int)).toNat : Int)) = t1 % (N : Int) := Int.toNat_of_nonneg h1
  unfold powmod
  rw [int_pow_emod, ← h2]
  rw [show ((((t1 % (N : Int)).toNat : Int)) ^ t2 % (N : Int)) =
      (((t1 % (N : Int)).toNat ^ t2 % N : Nat) : Int) by push_cast; rfl]
  exact Int.toNat_natCast _

/-- Unfolding lemma for the instrumented challenge processor: the result is
the three-way case split on the two safety checks, with every intermediate
value written out. -/
lemma process_challenge_instr_eq (H : HashFun)
    (cx : Bytes → String → String → Nat)
    (cM : Nat → Nat → String → Bytes → Nat → Nat → Bytes → Bytes)
    (N g : Nat) (identity password : String) (salt : Bytes) (a A B : Nat) :
    process_challenge_instr H cx cM N g identity password salt a A B =
      if B = 0 then
        (Except.error (SrpError.safetyException "Public value B is 0. Auth Failed."), 0)
      else if _to_int (H [HashArg.bytes (_pad A (bit_length N)),
          HashArg.bytes (_pad B (bit_length N))]) = 0 then
        (Except.error (SrpError.safetyException "Scrambler u is 0. Auth Failed."), 0)
      else
        (Except.ok
          (cM g N identity salt A B
            (H [HashArg.int (powmod
              ((B : Int) -
                (_to_int (H [HashArg.int N, HashArg.bytes (_pad g (bit_length N))]) : Int) *
                ((g ^ cx salt identity password % N : Nat) : Int))
              (a + _to_int (H [HashArg.bytes (_pad A (bit_length N)),
                HashArg.bytes (_pad B (bit_length N))]) * cx salt identity password) N)]),
           H [HashArg.int (powmod
              ((B : Int) -
                (_to_int (H [HashArg.int N, HashArg.bytes (_pad g (bit_length N))]) : Int) *
                ((g ^ cx salt identity password % N : Nat) : Int))
              (a + _to_int (H [HashArg.bytes (_pad A (bit_length N)),
                HashArg.bytes (_pad B (bit_length N))]) * cx salt identity password) N)]), 1) :=
  rfl

/-!
Claim theorems.
-/

/-- Claim C1 (code evaluation at the failing input): with the group prime
N = 23 the server value B = 23 is congruent to 0 modulo N and nonzero as an
integer; `process_challenge` nevertheless returns a result instead of
raising `SafetyException`, because the source checks `B == 0` literally
rather than `B % N == 0`. The stub hash returns `[1]` so the scrambler
check passes. -/
theorem process_challenge_accepts_B_congruent_zero :
    (23 : Nat) % 23 = 0 ∧ (23 : Nat) ≠ 0 ∧
    process_challenge (fun _ => [1]) (fun _ _ _ => 3) (fun _ _ _ _ _ _ sk => sk)
      23 5 "user" "pw" [] 6 8 23 = Except.ok ([1], [1]) :=
  ⟨rfl, by decide, rfl⟩

/-- Claim C2 (code evaluation at the failing input): the width that
`process_challenge` passes to the Pad contract is `bit_length N` (the
source computes `width = prime.bit_length()`), which for N = 23 is 5,
while the byte length of the big-endian encoding of N is 1; the padded
generator therefore has 5 bytes, not the byte length of N required by the
Pad contract (whose width parameter is measured in bytes). -/
theorem pad_width_is_bit_length_not_byte_length :
    bit_length 23 = 5 ∧ (toBytesBE 23).length = 1 ∧
    _pad 5 (bit_length 23) = [0, 0, 0, 0, 5] ∧
    (_pad 5 (bit_length 23)).length ≠ (toBytesBE 23).length :=
  ⟨rfl, rfl, rfl, by decide⟩

/-- Claim C3: for inputs passing both safety checks, `process_challenge`
returns session key H(S) and message M built from the premaster secret
S = (B - k·(g^x mod N))^(a + u·x) mod N, where the base t1 is an integer
(possibly negative), the exponent t2 = a + u·x is computed over the
integers without modular reduction, the computation normalizes the base
into [0, N) before exponentiating (S = ((t1 mod N)^t2) mod N over the
naturals), and S agrees with the reference big-integer computation
t1^t2 mod N whose modulo is always non-negative; moreover S < N. -/
theorem process_challenge_premaster
    (H : HashFun) (cx : Bytes → String → String → Nat)
    (cM : Nat → Nat → String → Bytes → Nat → Nat → Bytes → Bytes)
    (N g : Nat) (identity password : String) (salt : Bytes) (a A B : Nat)
    (u x k : Nat) (t1 : Int) (t2 S : Nat)
    (hN : 0 < N) (hB : B ≠ 0)
    (hu : u = _to_int (H [HashArg.bytes (_pad A (bit_length N)),
      HashArg.bytes (_pad B (bit_length N))]))
    (hune : u ≠ 0)
    (hx : x = cx salt identity password)
    (hk : k = _to_int (H [HashArg.int N, HashArg.bytes (_pad g (bit_length N))]))
    (ht1 : t1 = (B : Int) - (k : Int) * ((g ^ x % N : Nat) : Int))
    (ht2 : t2 = a + u * x)
    (hS : S = (t1 % (N : Int)).toNat ^ t2 % N) :
    process_challenge H cx cM N g identity password salt a A B =
      Except.ok (cM g N identity salt A B (H [HashArg.int S]), H [HashArg.int S]) ∧
    (S : Int) = t1 ^ t2 % (N : Int) ∧ S < N := by
  refine ⟨?_, ?_, ?_⟩
  · subst hu hx hk ht1 ht2 hS
    simp only [process_challenge, process_challenge_instr_eq, if_neg hB, if_neg hune]
    rw [powmod_eq_norm _ _ _ hN]
  · have hNz : (N : Int) ≠ 0 := Int.natCast_ne_zero.mpr hN.ne'
    have h2 : (((t1 % (N : Int)).toNat : Int)) = t1 % (N : Int) :=
      Int.toNat_of_nonneg (Int.emod_nonneg t1 hNz)
    subst hS
    rw [show ((((t1 % (N : Int)).toNat ^ t2 % N : Nat)) : Int) =
        (((t1 % (N : Int)).toNat : Int)) ^ t2 % (N : Int) from by
      generalize (t1 % (N : Int)).toNat = r
      push_cast
      rfl]
    rw [h2, ← int_pow_emod]
  · subst hS
    exact Nat.mod_lt _ hN

/-- Claim C3 witness: a concrete run with N = 23 that forces a negative
base t1 = -1 (so the normalization into [0, N) is exercised), premaster
secret 22, and a successful result. -/
theorem process_challenge_premaster_witness :
    process_challenge (fun _ => [1]) (fun _ _ _ => 3) (fun _ _ _ _ _ _ sk => sk)
        23 5 "user" "pw" [] 6 8 9 = Except.ok ([1], [1]) ∧
    ((22 : Nat) : Int) = (-1 : Int) ^ 9 % 23 ∧ (22 : Nat) < 23 :=
  process_challenge_premaster (fun _ => [1]) (fun _ _ _ => 3) (fun _ _ _ _ _ _ sk => sk)
    23 5 "user" "pw" [] 6 8 9 1 3 1 (-1) 9 22
    (by decide) (by decide) rfl (by decide) rfl rfl (by decide) rfl (by decide)

/-- Claim C4: a safety violation is raised exactly when `B = 0` or the
scrambler `u` decodes to 0; on every safety-violation path the instrumented
embedding performs zero final modular exponentiations (the premaster secret
is never computed); and when neither condition holds the call returns a
result, raising no safety violation. -/
theorem process_challenge_safety_checks
    (H : HashFun) (cx : Bytes → String → String → Nat)
    (cM : Nat → Nat → String → Bytes → Nat → Nat → Bytes → Bytes)
    (N g : Nat) (identity password : String) (salt : Bytes) (a A B : Nat) (u : Nat)
    (hu : u = _to_int (H [HashArg.bytes (_pad A (bit_length N)),
      HashArg.bytes (_pad B (bit_length N))])) :
    ((∃ msg, process_challenge H cx cM N g identity password salt a A B =
        Except.error (SrpError.safetyException msg)) ↔ (B = 0 ∨ u = 0)) ∧
    ((B = 0 ∨ u = 0) →
      (process_challenge_instr H cx cM N g identity password salt a A B).2 = 0) ∧
    (¬(B = 0 ∨ u = 0) →
      ∃ M session_key, process_challenge H cx cM N g identity password salt a A B =
        Except.ok (M, session_key)) := by
  subst hu
  by_cases hB : B = 0
  · refine ⟨⟨fun _ => Or.inl hB, fun _ => ⟨"Public value B is 0. Auth Failed.", ?_⟩⟩,
      fun _ => ?_, fun hc => absurd (Or.inl hB) hc⟩
    · simp [process_challenge, process_challenge_instr_eq, hB]
    · simp [process_challenge_instr_eq, hB]
  · by_cases hu0 : _to_int (H [HashArg.bytes (_pad A (bit_length N)),
      HashArg.bytes (_pad B (bit_length N))]) = 0
    · refine ⟨⟨fun _ => Or.inr hu0, fun _ => ⟨"Scrambler u is 0. Auth Failed.", ?_⟩⟩,
        fun _ => ?_, fun hc => absurd (Or.inr hu0) hc⟩
      · simp [process_challenge, process_challenge_instr_eq, hB, hu0]
      · simp [process_challenge_instr_eq, hB, hu0]
    · refine ⟨⟨fun hex => ?_, fun hor => absurd hor (by simp [hB, hu0])⟩,
        fun hor => absurd hor (by simp [hB, hu0]), fun _ => ?_⟩
      · obtain ⟨msg, hmsg⟩ := hex
        rw [show process_challenge H cx cM N g identity password salt a A B =
          (process_challenge_instr H cx cM N g identity password salt a A B).1 from rfl,
          process_challenge_instr_eq, if_neg hB, if_neg hu0] at hmsg
        exact absurd hmsg (by simp)
      · simp only [process_challenge, process_challenge_instr_eq, if_neg hB, if_neg hu0]
        exact ⟨_, _, rfl⟩

/-- Claim C4 witness: with a stub hash returning the empty byte string the
scrambler decodes to 0, and the instrumented run performs zero final
modular exponentiations. -/
theorem process_challenge_safety_checks_witness :
    (process_challenge_instr (fun _ => []) (fun _ _ _ => 3) (fun _ _ _ _ _ _ sk => sk)
      23 5 "user" "pw" [] 6 8 9).2 = 0 :=
  (process_challenge_safety_checks (fun _ => []) (fun _ _ _ => 3)
    (fun _ _ _ _ _ _ sk => sk) 23 5 "user" "pw" [] 6 8 9 0 rfl).2.1 (Or.inr rfl)

/-- Claim C5: the hash inputs are built exactly as the source does: the
scrambler u is the big-endian decoding of H applied to the padded A and
padded B; the multiplier k is the big-endian decoding of H applied to the
integer N unpadded and the padded generator; and the session key is H
applied to the premaster secret S as a bare integer (natural encoding, no
width padding). -/
theorem process_challenge_hash_inputs
    (H : HashFun) (cx : Bytes → String → String → Nat)
    (cM : Nat → Nat → String → Bytes → Nat → Nat → Bytes → Bytes)
    (N g : Nat) (identity password : String) (salt : Bytes) (a A B : Nat)
    (u x k S : Nat)
    (hB : B ≠ 0)
    (hu : u = _to_int (H [HashArg.bytes (_pad A (bit_length N)),
      HashArg.bytes (_pad B (bit_length N))]))
    (hune : u ≠ 0)
    (hx : x = cx salt identity password)
    (hk : k = _to_int (H [HashArg.int N, HashArg.bytes (_pad g (bit_length N))]))
    (hS : S = powmod ((B : Int) - (k : Int) * ((g ^ x % N : Nat) : Int)) (a + u * x) N) :
    process_challenge H cx cM N g identity password salt a A B =
      Except.ok (cM g N identity salt A B (H [HashArg.int S]), H [HashArg.int S]) := by
  subst hu hx hk hS
  simp only [process_challenge, process_challenge_instr_eq, if_neg hB, if_neg hune]

/-- Claim C5 witness: a concrete run with all contract stubs evaluated. -/
theorem process_challenge_hash_inputs_witness :
    process_challenge (fun _ => [1]) (fun _ _ _ => 3) (fun _ _ _ _ _ _ sk => sk)
        23 5 "user" "pw" [] 2 8 9 = Except.ok ([1], [1]) :=
  process_challenge_hash_inputs (fun _ => [1]) (fun _ _ _ => 3) (fun _ _ _ _ _ _ sk => sk)
    23 5 "user" "pw" [] 2 8 9 1 3 1 22
    (by decide) rfl (by decide) rfl rfl (by decide)

/-- Claim C6: `verify_session` recomputes the evidence H(A, M, session_key)
and raises `EvidenceException` exactly when the server value differs from
it; on match it returns the recomputed value; and every error it raises is
the evidence-mismatch error (never a safety violation). -/
theorem verify_session_spec (H : HashFun) (A : Nat)
    (M session_key server_H_AMK client_H_AMK : Bytes)
    (hc : client_H_AMK = H [HashArg.int A, HashArg.bytes M, HashArg.bytes session_key]) :
    (verify_session H A M session_key server_H_AMK =
        Except.error (SrpError.evidenceException "Evidence keys do not match. Auth Failed.") ↔
      client_H_AMK ≠ server_H_AMK) ∧
    (client_H_AMK = server_H_AMK →
      verify_session H A M session_key server_H_AMK = Except.ok client_H_AMK) ∧
    (∀ e, verify_session H A M session_key server_H_AMK = Except.error e →
      e = SrpError.evidenceException "Evidence keys do not match. Auth Failed.") := by
  subst hc
  by_cases h : H [HashArg.int A, HashArg.bytes M, HashArg.bytes session_key] = server_H_AMK
  · refine ⟨?_, fun _ => ?_, fun e he => ?_⟩
    · simp [verify_session, h]
    · simp [verify_session, h]
    · rw [show verify_session H A M session_key server_H_AMK = Except.ok
        (H [HashArg.int A, HashArg.bytes M, HashArg.bytes session_key]) from by
          simp [verify_session, h]] at he
      exact absurd he (by simp)
  · refine ⟨?_, fun heq => absurd heq h, fun e he => ?_⟩
    · simp [verify_session, h]
    · rw [show verify_session H A M session_key server_H_AMK = Except.error
        (SrpError.evidenceException "Evidence keys do not match. Auth Failed.") from by
          simp [verify_session, h]] at he
      exact (Except.error.inj he).symm

/-- Claim C6 witness: a concrete mismatch (recomputed evidence is the byte
string 7, server sent 8) raising the evidence error. -/
theorem verify_session_spec_witness :
    (verify_session (fun _ => [7]) 1 [2] [3] [8] =
        Except.error (SrpError.evidenceException "Evidence keys do not match. Auth Failed.") ↔
      ([7] : Bytes) ≠ [8]) ∧
    (([7] : Bytes) = [8] → verify_session (fun _ => [7]) 1 [2] [3] [8] = Except.ok [7]) ∧
    (∀ e, verify_session (fun _ => [7]) 1 [2] [3] [8] = Except.error e →
      e = SrpError.evidenceException "Evidence keys do not match. Auth Failed.") :=
  verify_session_spec (fun _ => [7]) 1 [2] [3] [8] [7] rfl

/-- Claim C7: `generate_a_pair` asks the random source for 32 bytes; on
success it returns (a, A) with a the big-endian decoding of those bytes
(no range validation: the equation holds for every byte string, including
one decoding to 0) and A = g^a mod N; on failure of the random source it
propagates the failure unchanged, and these are its only behaviors. -/
theorem generate_a_pair_spec (N g : Nat) (rand : Nat → Except String Bytes) :
    (∀ e, rand 32 = Except.error e → generate_a_pair N g rand = Except.error e) ∧
    (∀ bs, rand 32 = Except.ok bs →
      generate_a_pair N g rand = Except.ok (_to_int bs, g ^ _to_int bs % N)) := by
  constructor
  · intro e he
    unfold generate_a_pair
    rw [he]
  · intro bs hbs
    unfold generate_a_pair
    rw [hbs]

/-- Claim C7 witness: a failing random source propagates its error
unchanged, and an all-zero 32-byte draw yields a = 0 (accepted without
range validation) and A = g^0 mod N = 1. -/
theorem generate_a_pair_spec_witness :
    generate_a_pair 23 5 (fun _ => Except.error "entropy exhausted") =
      Except.error "entropy exhausted" ∧
    generate_a_pair 23 5 (fun n => Except.ok (List.replicate n 0)) = Except.ok (0, 1) :=
  ⟨(generate_a_pair_spec 23 5 (fun _ => Except.error "entropy exhausted")).1
      "entropy exhausted" rfl,
   (generate_a_pair_spec 23 5 (fun n => Except.ok (List.replicate n 0))).2
      (List.replicate 32 0) rfl⟩

/-- Claim C8: `process_challenge` is deterministic: two invocations with
identical inputs and the same (deterministic) external hash and derivation
contracts return the same result. -/
theorem process_challenge_deterministic
    (H : HashFun) (cx : Bytes → String → String → Nat)
    (cM : Nat → Nat → String → Bytes → Nat → Nat → Bytes → Bytes)
    (N g : Nat) (identity password : String) (salt : Bytes) (a A B : Nat)
    (r₁ r₂ : Except SrpError (Bytes × Bytes))
    (h₁ : r₁ = process_challenge H cx cM N g identity password salt a A B)
    (h₂ : r₂ = process_challenge H cx cM N g identity password salt a A B) :
    r₁ = r₂ :=
  h₁.trans h₂.symm

/-- Claim C8 witness: two concrete invocations with identical inputs agree. -/
theorem process_challenge_deterministic_witness :
    process_challenge (fun _ => [1]) (fun _ _ _ => 3) (fun _ _ _ _ _ _ sk => sk)
        23 5 "user" "pw" [] 6 8 9 =
      process_challenge (fun _ => [1]) (fun _ _ _ => 3) (fun _ _ _ _ _ _ sk => sk)
        23 5 "user" "pw" [] 6 8 9 :=
  process_challenge_deterministic (fun _ => [1]) (fun _ _ _ => 3)
    (fun _ _ _ _ _ _ sk => sk) 23 5 "user" "pw" [] 6 8 9 _ _ rfl rfl

/-- Claim C9: every public value A returned by `generate_a_pair` lies in
[0, N) (so A mod N = A), and when N is prime and g is not a multiple of N
the value A = g^a mod N is never congruent to 0 modulo N, for every
non-negative private ephemeral a, with no explicit check in the code. -/
theorem generate_a_pair_public_value (N g : Nat) (rand : Nat → Except String Bytes)
    (a A : Nat) (hN : 0 < N)
    (h : generate_a_pair N g rand = Except.ok (a, A)) :
    A < N ∧ A % N = A ∧ (Nat.Prime N → ¬ N ∣ g → A % N ≠ 0) := by
  unfold generate_a_pair at h
  cases hr : rand 32 with
  | error e =>
    rw [hr] at h
    exact absurd h (by simp)
  | ok bs =>
    rw [hr] at h
    simp only [Except.ok.injEq, Prod.mk.injEq] at h
    obtain ⟨ha, hA⟩ := h
    subst ha
    subst hA
    have hlt : g ^ _to_int bs % N < N := Nat.mod_lt _ hN
    refine ⟨hlt, Nat.mod_eq_of_lt hlt, fun hp hg hz => ?_⟩
    rw [Nat.mod_eq_of_lt hlt] at hz
    exact hg (hp.dvd_of_dvd_pow (Nat.dvd_of_mod_eq_zero hz))

/-- Claim C9 witness: an all-zero draw gives a = 0, A = 1, and the
invariants hold for the prime group N = 23, g = 5. -/
theorem generate_a_pair_public_value_witness :
    (1 : Nat) < 23 ∧ (1 : Nat) % 23 = 1 ∧
      (Nat.Prime 23 → ¬ (23 : Nat) ∣ 5 → (1 : Nat) % 23 ≠ 0) :=
  generate_a_pair_public_value 23 5 (fun n => Except.ok (List.replicate n 0)) 0 1
    (by decide) rfl

/-- Claim C10: when both safety conditions hold at once (B = 0 and the
scrambler u decodes to 0), the exception raised is the B-related one,
because the B check runs first; the u condition is never reported. -/
theorem process_challenge_checks_order
    (H : HashFun) (cx : Bytes → String → String → Nat)
    (cM : Nat → Nat → String → Bytes → Nat → Nat → Bytes → Bytes)
    (N g : Nat) (identity password : String) (salt : Bytes) (a A B : Nat)
    (hB : B = 0)
    (hu : _to_int (H [HashArg.bytes (_pad A (bit_length N)),
      HashArg.bytes (_pad B (bit_length N))]) = 0) :
    process_challenge H cx cM N g identity password salt a A B =
      Except.error (SrpError.safetyException "Public value B is 0. Auth Failed.") := by
  simp [process_challenge, process_challenge_instr_eq, hB]

/-- Claim C10 witness: with B = 0 and a stub hash making u decode to 0,
the raised exception is the B-related safety violation. -/
theorem process_challenge_checks_order_witness :
    process_challenge (fun _ => []) (fun _ _ _ => 3) (fun _ _ _ _ _ _ sk => sk)
        23 5 "user" "pw" [] 6 8 0 =
      Except.error (SrpError.safetyException "Public value B is 0. Auth Failed.") :=
  process_challenge_checks_order (fun _ => []) (fun _ _ _ => 3) (fun _ _ _ _ _ _ sk => sk)
    23 5 "user" "pw" [] 6 8 0 rfl rfl

end BSRP
